import Mathlib

/-!
Verification of the guillotina transactional object store, two-tier cache and
pubsub invalidation bus, as a shallow embedding of:
  - src/guillotina/db/storages/pg.py       (PostgresqlStorage, PGVacuum, SQL)
  - src/guillotina/contrib/cache/utility.py (CacheUtility)
  - src/guillotina/contrib/pubsub/utility.py (PubSubUtility)

Database tables are lists of records; the SQL statements registered in pg.py
are translated to list operations with the PostgreSQL constraint semantics
(primary key on zoid, partial unique index on (parent_id, id), foreign keys
on parent_id / of) modelled explicitly.  async control flow is sequentialized;
exceptions become `Except` / explicit error fields.
-/

namespace Guillotina

/-- Modelled from the spec: `guillotina.const.TRASHED_ID`, the reserved trash
sentinel OID, is imported by pg.py but its defining module is not under src/.
The spec calls it "one reserved sentinel OID per table" with "a fixed
well-known id"; only its fixedness matters, so it is an opaque constant. -/
def TRASHED_ID : String := "T"

/-- One row of the objects table (schema `PostgresqlStorage._object_schema`):
zoid, tid, state_size, part, resource, of, otid, parent_id, id, type, json,
state.  Nullable columns are `Option`; `state` bytes are `List Nat`. -/
structure ObjRecord where
  zoid : String
  tid : Int
  state_size : Int
  part : Int
  resource : Bool
  of : Option String
  otid : Option Int
  parent_id : Option String
  id : Option String
  type : String
  json : Option String
  state : Option (List Nat)
deriving DecidableEq, Repr

/-- `GET_OID` / `HAS_OBJECT`: first row whose zoid matches (zoid is the
primary key, so at most one row matches in a well-formed table). -/
def findRow (tbl : List ObjRecord) (oid : String) : Option ObjRecord :=
  tbl.find? fun r => r.zoid == oid

/-- Errors raised by the modelled PostgreSQL engine while executing a
statement.  `uniqueViolation` carries the key columns reported in the
exception's detail (`'Key (parent_id, id)' in ex.detail` in store). -/
inductive PGError where
  | uniqueViolation (detailKey : String)
  | foreignKeyViolation
deriving DecidableEq, Repr

/-- Rows `row` and `r` collide on the partial unique index
`(parent_id, id) WHERE parent_id != TRASHED_ID` (`_unique_constraint`):
both parent ids equal, non-null and not the trash sentinel, ids equal and
non-null (SQL NULLs never collide). -/
def sameParentIdCollision (row r : ObjRecord) : Bool :=
  match row.parent_id, r.parent_id, row.id, r.id with
  | some p, some p', some i, some i' => p == p' && p != TRASHED_ID && i == i'
  | _, _, _, _ => false

/-- The changed row `row` violates the partial unique index against some
other row of the table. -/
def uniqueParentIdViolation (tbl : List ObjRecord) (row : ObjRecord) : Bool :=
  tbl.any fun r => r.zoid != row.zoid && sameParentIdCollision row r

/-- Some row of the table has the given zoid. -/
def zoidExists (tbl : List ObjRecord) (z : String) : Bool :=
  tbl.any fun r => r.zoid == z

/-- The changed row violates a foreign key: its parent_id or of references a
zoid that is not present in the table (`REFERENCES {objects_table_name}`). -/
def fkViolation (tbl : List ObjRecord) (row : ObjRecord) : Bool :=
  (match row.parent_id with | some p => !zoidExists tbl p | none => false) ||
  (match row.of with | some o => !zoidExists tbl o | none => false)

/-- Constraint check run by the engine on the row changed by a statement,
against the table as it would stand after the change; the first violated
constraint aborts the statement with its error. -/
def checkConstraints (tblAfter : List ObjRecord) (row : ObjRecord) : Option PGError :=
  if uniqueParentIdViolation tblAfter row then some (.uniqueViolation "(parent_id, id)")
  else if fkViolation tblAfter row then some .foreignKeyViolation
  else none

/-- Row matches the `UPDATE` statement's guard
`WHERE zoid = $1 AND tid = $7` ($7 is old_serial, also stored into otid). -/
def tidMatches (r : ObjRecord) (oid : String) (oldSerial : Option Int) : Bool :=
  r.zoid == oid && some r.tid == oldSerial

/-- Effect of the guarded `UPDATE` registered as 'UPDATE' in pg.py: replace
every row matching the guard by the new column values (zoid is not in the SET
list and the new row keeps it), and report the affected-row count that the
`WITH rows AS (... RETURNING 1) SELECT count(*)` wrapper returns. -/
def applyUpdate (tbl : List ObjRecord) (oid : String) (oldSerial : Option Int)
    (newRow : ObjRecord) : List ObjRecord × Nat :=
  (tbl.map fun r => if tidMatches r oid oldSerial then newRow else r,
   (tbl.filter fun r => tidMatches r oid oldSerial).length)

/-- Effect of `NAIVE_UPSERT`: `INSERT ... ON CONFLICT (zoid) DO UPDATE` -
replace the row with this zoid if present, else append the new row. -/
def applyUpsert (tbl : List ObjRecord) (newRow : ObjRecord) : List ObjRecord :=
  if tbl.any (fun r => r.zoid == newRow.zoid)
  then tbl.map fun r => if r.zoid == newRow.zoid then newRow else r
  else tbl ++ [newRow]

/-- Execute the guarded 'UPDATE' statement: when no row matches the guard the
statement does nothing and reports count 0; when a row is changed the
constraints are checked and a violation aborts the statement, leaving the
table unchanged (statement-level rollback). -/
def execUpdate (tbl : List ObjRecord) (oid : String) (oldSerial : Option Int)
    (newRow : ObjRecord) : Except PGError (List ObjRecord × Nat) :=
  match applyUpdate tbl oid oldSerial newRow with
  | (tbl', count) =>
    if count = 0 then .ok (tbl, 0)
    else
      match checkConstraints tbl' newRow with
      | some e => .error e
      | none => .ok (tbl', count)

/-- Execute the 'NAIVE_UPSERT' statement: always touches exactly one row
(count 1); a constraint violation aborts it, leaving the table unchanged. -/
def execNaiveUpsert (tbl : List ObjRecord) (newRow : ObjRecord) :
    Except PGError (List ObjRecord × Nat) :=
  match checkConstraints (applyUpsert tbl newRow) newRow with
  | some e => .error e
  | none => .ok (applyUpsert tbl newRow, 1)

/-- Exception classes `store` can raise (guillotina.exceptions);
`pgError` stands for a database exception re-raised unhandled. -/
inductive StoreError where
  | tidConflictError (msg : String)
  | conflictIdOnContainer
  | pgError (e : PGError)
deriving DecidableEq, Repr

/-- Python exception class of a `StoreError`, forgetting the message. -/
inductive ExcClass where
  | TIDConflictError
  | ConflictIdOnContainer
  | OtherError
deriving DecidableEq, Repr

/-- Class of each raised error: both `tidConflictError` messages are raises
of the same `TIDConflictError` Python class. -/
def StoreError.cls : StoreError → ExcClass
  | .tidConflictError _ => .TIDConflictError
  | .conflictIdOnContainer => .ConflictIdOnContainer
  | .pgError _ => .OtherError

/-- Message of the `TIDConflictError` raised when the guarded update touched
zero rows (pg.py store, `if update:` branch of the count check). -/
def tidMismatchMsg : String :=
  "Mismatch of tid of object being updated. This is likely caused by a " ++
  "cache invalidation race condition and should be an edge case. This " ++
  "should resolve on request retry."

/-- Message of the `TIDConflictError` raised on a ForeignKeyViolationError
(pg.py store, dangling parent reference). -/
def badCacheValueMsg : String :=
  "Bad value inserting into database that could be caused by a bad cache " ++
  "value. This should resolve on request retry."

/-- Fields of the writer argument of `store` that are read by it. -/
structure Writer where
  part : Option Int
  resource : Bool
  of : Option String
  parent_id : Option String
  id : Option String
  type : String
deriving DecidableEq, Repr

/-- Fields of the obj argument of `store` that drive statement selection. -/
structure StoreObj where
  newMarker : Bool
  serial : Option Int
deriving DecidableEq, Repr

/-- The row `store` binds to the statement parameters: $1 = oid,
$2 = txn._tid, $3 = len(pickled), $4 = part (0 when None), $5..$10 writer
fields, $7 = old_serial (stored as otid), $11 = json, $12 = pickled. -/
def newObjRow (oid : String) (oldSerial : Option Int) (w : Writer)
    (txnTid : Int) (pickled : List Nat) (json : Option String) : ObjRecord :=
  { zoid := oid, tid := txnTid, state_size := (pickled.length : Int),
    part := w.part.getD 0, resource := w.resource, of := w.of,
    otid := oldSerial, parent_id := w.parent_id, id := w.id,
    type := w.type, json := json, state := some pickled }

/-- `update = not obj.__new_marker__ and obj.__serial__ is not None`:
selects the guarded 'UPDATE' over 'NAIVE_UPSERT'. -/
def updateMode (obj : StoreObj) : Bool :=
  !obj.newMarker && obj.serial.isSome

/-- Outcome of one `store` call: the table it leaves behind, the error it
raises (if any), and whether it marked the object deleted in the transaction
(`txn.deleted[obj.__uuid__] = obj`, done only in the FK-violation handler). -/
structure StoreResult where
  table : List ObjRecord
  error : Option StoreError
  txnDeletedMarked : Bool
deriving DecidableEq, Repr

/-- Exception handling and count check of `store` around the executed
statement: UniqueViolationError with a (parent_id, id) detail becomes
ConflictIdOnContainer; ForeignKeyViolationError marks the object deleted and
becomes a TIDConflictError; a count other than 1 raises TIDConflictError only
in update mode (otherwise it is merely logged).  A raising statement leaves
the table unchanged. -/
def storeHandle (tbl : List ObjRecord) (update : Bool) :
    Except PGError (List ObjRecord × Nat) → StoreResult
  | .error (.uniqueViolation k) =>
    if k = "(parent_id, id)"
    then { table := tbl, error := some .conflictIdOnContainer, txnDeletedMarked := false }
    else { table := tbl, error := some (.pgError (.uniqueViolation k)), txnDeletedMarked := false }
  | .error .foreignKeyViolation =>
    { table := tbl, error := some (.tidConflictError badCacheValueMsg), txnDeletedMarked := true }
  | .ok (tbl', count) =>
    if count ≠ 1 ∧ update = true
    then { table := tbl', error := some (.tidConflictError tidMismatchMsg), txnDeletedMarked := false }
    else { table := tbl', error := none, txnDeletedMarked := false }

/-- `PostgresqlStorage.store(oid, old_serial, writer, obj, txn)`: serializes
the payload (the serialized bytes and json projection are inputs here),
chooses the guarded 'UPDATE' when `not obj.__new_marker__ and obj.__serial__
is not None`, else 'NAIVE_UPSERT', executes it and handles the outcome. -/
def PostgresqlStorage.store (tbl : List ObjRecord) (oid : String)
    (oldSerial : Option Int) (w : Writer) (obj : StoreObj) (txnTid : Int)
    (pickled : List Nat) (json : Option String) : StoreResult :=
  storeHandle tbl (updateMode obj)
    (if updateMode obj
     then execUpdate tbl oid oldSerial (newObjRow oid oldSerial w txnTid pickled json)
     else execNaiveUpsert tbl (newObjRow oid oldSerial w txnTid pickled json))

/-- Mapping a function that fixes every member of a list is the identity. -/
theorem mapIdOfMem {α : Type} {l : List α} {f : α → α} (h : ∀ a ∈ l, f a = a) :
    l.map f = l := by
  induction l with
  | nil => rfl
  | cons a t ih =>
    simp only [List.map_cons]
    rw [h a (List.mem_cons_self a t), ih (fun b hb => h b (List.mem_cons_of_mem a hb))]

/-- No row of the table matches the guarded update when every row carrying
the target zoid stores a tid different from the expected one. -/
theorem tidMatches_false_of_stale {tbl : List ObjRecord} {oid : String}
    {oldSerial : Option Int} (hstale : ∀ r ∈ tbl, r.zoid = oid → some r.tid ≠ oldSerial) :
    ∀ r ∈ tbl, tidMatches r oid oldSerial = false := by
  intro r hr
  unfold tidMatches
  cases hz : (r.zoid == oid) with
  | false => simp [hz]
  | true =>
    have hzeq : r.zoid = oid := by simpa using hz
    simp [hz, beq_eq_false_iff_ne.mpr (hstale r hr hzeq)]

/-- The guarded update statement is a no-op reporting count 0 when every row
with the target zoid is stale. -/
theorem execUpdate_stale {tbl : List ObjRecord} {oid : String}
    {oldSerial : Option Int} {newRow : ObjRecord}
    (hstale : ∀ r ∈ tbl, r.zoid = oid → some r.tid ≠ oldSerial) :
    execUpdate tbl oid oldSerial newRow = .ok (tbl, 0) := by
  have hm := tidMatches_false_of_stale hstale
  have hmap : (tbl.map fun r => if tidMatches r oid oldSerial then newRow else r) = tbl :=
    mapIdOfMem (fun r hr => by rw [hm r hr]; rfl)
  have hfil : (tbl.filter fun r => tidMatches r oid oldSerial) = [] :=
    List.filter_eq_nil_iff.mpr (fun r hr => by simp [hm r hr])
  unfold execUpdate applyUpdate
  rw [hmap, hfil]
  rfl

/-- C1: for every existing object record, a `store` call on the conditional
update path whose expected tid (old_serial) differs from the tid every
matching stored row carries fails with `TIDConflictError` (the zero-row
guarded UPDATE), and the table is left completely unchanged. -/
theorem store_stale_tid_conflict
    (tbl : List ObjRecord) (oid : String) (oldSerial : Option Int) (w : Writer)
    (obj : StoreObj) (txnTid : Int) (pickled : List Nat) (json : Option String)
    (hex : (findRow tbl oid).isSome = true)
    (hstale : ∀ r ∈ tbl, r.zoid = oid → some r.tid ≠ oldSerial)
    (hnew : obj.newMarker = false) (hser : obj.serial.isSome = true) :
    PostgresqlStorage.store tbl oid oldSerial w obj txnTid pickled json =
      { table := tbl, error := some (.tidConflictError tidMismatchMsg),
        txnDeletedMarked := false } := by
  have hu : updateMode obj = true := by simp [updateMode, hnew, hser]
  rw [PostgresqlStorage.store, hu]
  simp only [if_true]
  rw [execUpdate_stale hstale]
  simp [storeHandle]

/-- Sentinel trash row created by the 'CREATE_TRASH' statement. -/
def trashRec : ObjRecord :=
  { zoid := TRASHED_ID, tid := 0, state_size := 0, part := 0, resource := false,
    of := none, otid := none, parent_id := none, id := none,
    type := "TRASH_REF", json := none, state := none }

/-- Example container row. -/
def rootRec : ObjRecord :=
  { zoid := "root", tid := 1, state_size := 0, part := 0, resource := true,
    of := none, otid := none, parent_id := none, id := some "root",
    type := "Container", json := none, state := none }

/-- Example child row living under the container, currently at tid 2. -/
def doc1Rec : ObjRecord :=
  { zoid := "doc1", tid := 2, state_size := 3, part := 0, resource := true,
    of := none, otid := some 1, parent_id := some "root", id := some "doc1",
    type := "Item", json := none, state := some [1, 2, 3] }

/-- Example objects table. -/
def exTable : List ObjRecord := [trashRec, rootRec, doc1Rec]

/-- Writer for an update of doc1 in place. -/
def exWriter : Writer :=
  { part := some 0, resource := true, of := none, parent_id := some "root",
    id := some "doc1", type := "Item" }

/-- Writer whose parent reference points at a zoid absent from the table. -/
def exWriterDangling : Writer :=
  { part := some 0, resource := true, of := none, parent_id := some "missing",
    id := some "doc2", type := "Item" }

/-- Writer inserting a sibling colliding with doc1 on (parent_id, id). -/
def exWriterCollide : Writer :=
  { part := some 0, resource := true, of := none, parent_id := some "root",
    id := some "doc1", type := "Item" }

/-- Witness for C1: doc1 is stored at tid 2; a second writer that last
observed tid 1 fails with TIDConflictError and the table is unchanged. -/
theorem store_stale_tid_conflict_witness :
    PostgresqlStorage.store exTable "doc1" (some 1) exWriter
      { newMarker := false, serial := some 1 } 3 [9] none =
      { table := exTable, error := some (.tidConflictError tidMismatchMsg),
        txnDeletedMarked := false } :=
  store_stale_tid_conflict exTable "doc1" (some 1) exWriter
    { newMarker := false, serial := some 1 } 3 [9] none
    (by decide) (by decide) rfl rfl

/-- C2 counterexample: a write referencing the non-existent parent "missing"
raises an error of Python class TIDConflictError - the very same exception
class the zero-row conditional update raises - so the dangling-reference
conflict is not a kind distinct from the TID conflict. -/
theorem store_error_kinds_counterexample :
    ((PostgresqlStorage.store exTable "doc2" none exWriterDangling
        { newMarker := true, serial := none } 4 [7] none).error.map StoreError.cls
      = some ExcClass.TIDConflictError) ∧
    ((PostgresqlStorage.store exTable "doc1" (some 1) exWriter
        { newMarker := false, serial := some 1 } 3 [9] none).error.map StoreError.cls
      = some ExcClass.TIDConflictError) := by decide

/-- C2 amended: `store` raises ConflictIdOnContainer on a sibling-name
collision (a class distinct from TIDConflictError), but a foreign-key
violation on a missing parent is raised as TIDConflictError - the same
exception class as the zero-row conditional update, distinguished only by
its message - after marking the object deleted in the transaction. -/
theorem store_error_kinds_amended :
    (∀ (tbl : List ObjRecord) (oid : String) (oldSerial : Option Int)
       (w : Writer) (obj : StoreObj) (txnTid : Int) (pickled : List Nat)
       (json : Option String),
      updateMode obj = false →
      uniqueParentIdViolation
        (applyUpsert tbl (newObjRow oid oldSerial w txnTid pickled json))
        (newObjRow oid oldSerial w txnTid pickled json) = true →
      PostgresqlStorage.store tbl oid oldSerial w obj txnTid pickled json =
        { table := tbl, error := some .conflictIdOnContainer,
          txnDeletedMarked := false }) ∧
    (∀ (tbl : List ObjRecord) (oid : String) (oldSerial : Option Int)
       (w : Writer) (obj : StoreObj) (txnTid : Int) (pickled : List Nat)
       (json : Option String),
      updateMode obj = false →
      uniqueParentIdViolation
        (applyUpsert tbl (newObjRow oid oldSerial w txnTid pickled json))
        (newObjRow oid oldSerial w txnTid pickled json) = false →
      fkViolation
        (applyUpsert tbl (newObjRow oid oldSerial w txnTid pickled json))
        (newObjRow oid oldSerial w txnTid pickled json) = true →
      PostgresqlStorage.store tbl oid oldSerial w obj txnTid pickled json =
        { table := tbl, error := some (.tidConflictError badCacheValueMsg),
          txnDeletedMarked := true }) ∧
    (StoreError.conflictIdOnContainer.cls ≠ ExcClass.TIDConflictError ∧
     (StoreError.tidConflictError badCacheValueMsg).cls =
       (StoreError.tidConflictError tidMismatchMsg).cls) := by
  refine ⟨?_, ?_, by decide, rfl⟩
  · intro tbl oid oldSerial w obj txnTid pickled json h0 h1
    rw [PostgresqlStorage.store, h0]
    simp only [Bool.false_eq_true, if_false]
    rw [execNaiveUpsert, checkConstraints, h1]
    simp [storeHandle]
  · intro tbl oid oldSerial w obj txnTid pickled json h0 h1 h2
    rw [PostgresqlStorage.store, h0]
    simp only [Bool.false_eq_true, if_false]
    rw [execNaiveUpsert, checkConstraints, h1, h2]
    simp [storeHandle]

/-- Witness for the amended C2: inserting "doc2" under ("root", "doc1")
collides with doc1 and raises ConflictIdOnContainer; inserting "doc2" under
the missing parent raises TIDConflictError with the bad-cache message. -/
theorem store_error_kinds_amended_witness :
    PostgresqlStorage.store exTable "doc2" none exWriterCollide
      { newMarker := true, serial := none } 4 [7] none =
      { table := exTable, error := some .conflictIdOnContainer,
        txnDeletedMarked := false } ∧
    PostgresqlStorage.store exTable "doc2" none exWriterDangling
      { newMarker := true, serial := none } 4 [7] none =
      { table := exTable, error := some (.tidConflictError badCacheValueMsg),
        txnDeletedMarked := true } :=
  ⟨store_error_kinds_amended.1 exTable "doc2" none exWriterCollide
      { newMarker := true, serial := none } 4 [7] none rfl (by decide),
   store_error_kinds_amended.2.1 exTable "doc2" none exWriterDangling
      { newMarker := true, serial := none } 4 [7] none rfl (by decide) (by decide)⟩

/-- The 'TRASH_PARENT_ID' statement: re-parent the row with this zoid under
the trash sentinel (`SET parent_id = TRASHED_ID WHERE zoid = $1`). -/
def trashParentId (tbl : List ObjRecord) (oid : String) : List ObjRecord :=
  tbl.map fun r => if r.zoid == oid then { r with parent_id := some TRASHED_ID } else r

/-- `PostgresqlStorage.delete(txn, oid)`: executes 'TRASH_PARENT_ID' inside
the caller's transaction and, when autovacuum is on, schedules the
after-commit hook that enqueues the oid for the vacuum worker.  Returns the
new table and the list of oids handed to the hook; no physical delete. -/
def PostgresqlStorage.delete (tbl : List ObjRecord) (oid : String)
    (autovacuum : Bool) : List ObjRecord × List String :=
  (trashParentId tbl oid, if autovacuum then [oid] else [])

/-- The 'GET_CHILD' query: first row with this parent_id and id. -/
def get_child (tbl : List ObjRecord) (parentOid : String) (cid : String) :
    Option ObjRecord :=
  tbl.find? fun r => r.parent_id == some parentOid && r.id == some cid

/-- The 'GET_TRASHED_OBJECTS' query: zoids of rows parented at the trash
sentinel (what `PGVacuum.run` pushes onto its queue). -/
def get_trashed_objects (tbl : List ObjRecord) : List String :=
  (tbl.filter fun r => r.parent_id == some TRASHED_ID).map (fun r => r.zoid)

/-- `PGVacuum.vacuum(oid, table_name)`: the 'DELETE_OBJECT' statement,
physically removing the row with this zoid.  (The ON DELETE CASCADE fanout
to dependent rows is the database's foreign-key action, not modelled.) -/
def PGVacuum.vacuum (tbl : List ObjRecord) (oid : String) : List ObjRecord :=
  tbl.filter fun r => r.zoid != oid

/-- Looking a row up by zoid commutes with mapping a zoid-preserving
function over the table. -/
theorem find?_map_zoid (t : List ObjRecord) (oid : String)
    (f : ObjRecord → ObjRecord) (hf : ∀ r, (f r).zoid = r.zoid) :
    (t.map f).find? (fun r => r.zoid == oid) =
      (t.find? (fun r => r.zoid == oid)).map f := by
  induction t with
  | nil => rfl
  | cons a t ih =>
    rw [List.map_cons, List.find?_cons, List.find?_cons]
    have hsc : ((f a).zoid == oid) = (a.zoid == oid) := by rw [hf a]
    rw [hsc]
    cases hab : (a.zoid == oid) <;> simp [ih]

/-- Re-parenting to the trash commutes with looking a row up by zoid. -/
theorem findRow_trashParentId (tbl : List ObjRecord) (oid : String) :
    (trashParentId tbl oid).find? (fun r => r.zoid == oid) =
      (tbl.find? (fun r => r.zoid == oid)).map
        (fun r => { r with parent_id := some TRASHED_ID }) := by
  have h := find?_map_zoid tbl oid
    (fun r => if r.zoid == oid then { r with parent_id := some TRASHED_ID } else r)
    (fun r => by by_cases hz : (r.zoid == oid) = true <;> simp [hz])
  rw [trashParentId, h]
  cases hfind : tbl.find? (fun r => r.zoid == oid) with
  | none => rfl
  | some rec =>
    have hp : (fun r : ObjRecord => r.zoid == oid) rec = true :=
      @List.find?_some ObjRecord (fun r => r.zoid == oid) rec tbl hfind
    have hz : (rec.zoid == oid) = true := hp
    simp only [hfind, Option.map_some']
    rw [if_pos hz]

/-- C5: `delete(oid)` only re-parents the record under the trash sentinel in
the caller's transaction and schedules the post-commit vacuum hook: right
after it, `get_child` no longer finds the record under its old parent, the
row still exists (same table length, same fields but parent_id) and its zoid
appears in 'GET_TRASHED_OBJECTS', until `PGVacuum.vacuum` physically removes
it. -/
theorem delete_reparents_only
    (tbl : List ObjRecord) (oid : String) (rec : ObjRecord) (parent cid : String)
    (autovacuum : Bool)
    (hfind : findRow tbl oid = some rec)
    (hparent : rec.parent_id = some parent)
    (hid : rec.id = some cid)
    (hnp : parent ≠ TRASHED_ID)
    (hunique : ∀ r ∈ tbl, r.zoid ≠ oid → ¬(r.parent_id = some parent ∧ r.id = some cid)) :
    get_child (PostgresqlStorage.delete tbl oid autovacuum).1 parent cid = none ∧
    findRow (PostgresqlStorage.delete tbl oid autovacuum).1 oid =
      some { rec with parent_id := some TRASHED_ID } ∧
    oid ∈ get_trashed_objects (PostgresqlStorage.delete tbl oid autovacuum).1 ∧
    (PostgresqlStorage.delete tbl oid autovacuum).1.length = tbl.length ∧
    (PostgresqlStorage.delete tbl oid autovacuum).2 = (if autovacuum then [oid] else []) ∧
    findRow (PGVacuum.vacuum (PostgresqlStorage.delete tbl oid autovacuum).1 oid) oid = none := by
  have hzoid : rec.zoid = oid := by
    have := List.find?_some hfind
    simpa using this
  have hmem : rec ∈ tbl := List.mem_of_find?_eq_some hfind
  refine ⟨?_, ?_, ?_, ?_, rfl, ?_⟩
  · -- get_child finds nothing: trashed rows fail the parent test, others
    -- fail by uniqueness of (parent_id, id)
    apply List.find?_eq_none.mpr
    intro x hx
    simp only [PostgresqlStorage.delete, trashParentId, List.mem_map] at hx
    obtain ⟨r, hr, hfx⟩ := hx
    by_cases hz : r.zoid == oid
    · simp only [hz, if_true] at hfx
      subst hfx
      simp [beq_eq_false_iff_ne.mpr (Ne.symm (fun h => hnp (Option.some.inj h.symm).symm))]
    · simp only [hz, if_false] at hfx
      subst hfx
      have hzn : r.zoid ≠ oid := by simpa using hz
      have := hunique r hr hzn
      cases hp : (r.parent_id == some parent)
      · simp [hp]
      · have hpe : r.parent_id = some parent := by simpa using hp
        have hie : r.id ≠ some cid := fun hie => this ⟨hpe, hie⟩
        simp [hp, beq_eq_false_iff_ne.mpr hie]
  · -- the row is still there, re-parented and otherwise unchanged
    show (trashParentId tbl oid).find? (fun r => r.zoid == oid) = _
    rw [findRow_trashParentId tbl oid]
    rw [show tbl.find? (fun r => r.zoid == oid) = some rec from hfind]
    rfl
  · -- the zoid is listed by GET_TRASHED_OBJECTS
    simp only [PostgresqlStorage.delete, trashParentId, get_trashed_objects, List.mem_map]
    refine ⟨{ rec with parent_id := some TRASHED_ID }, ?_, hzoid⟩
    rw [List.mem_filter]
    constructor
    · rw [List.mem_map]
      exact ⟨rec, hmem, by simp [hzoid]⟩
    · simp
  · simp [PostgresqlStorage.delete, trashParentId]
  · -- after the vacuum worker's DELETE_OBJECT the row is gone
    apply List.find?_eq_none.mpr
    intro x hx
    rw [PGVacuum.vacuum, List.mem_filter] at hx
    simpa using hx.2

/-- Witness for C5: deleting doc1 from the example table re-parents it under
the trash sentinel, hides it from get_child, lists it among the trashed
objects, schedules it for vacuuming, and vacuuming removes the row. -/
theorem delete_reparents_only_witness :
    get_child (PostgresqlStorage.delete exTable "doc1" true).1 "root" "doc1" = none ∧
    findRow (PostgresqlStorage.delete exTable "doc1" true).1 "doc1" =
      some { doc1Rec with parent_id := some TRASHED_ID } ∧
    "doc1" ∈ get_trashed_objects (PostgresqlStorage.delete exTable "doc1" true).1 ∧
    (PostgresqlStorage.delete exTable "doc1" true).1.length = exTable.length ∧
    (PostgresqlStorage.delete exTable "doc1" true).2 = (if true then ["doc1"] else []) ∧
    findRow (PGVacuum.vacuum (PostgresqlStorage.delete exTable "doc1" true).1 "doc1") "doc1" = none :=
  delete_reparents_only exTable "doc1" doc1Rec "root" "doc1" true
    (by decide) rfl rfl (by decide) (by decide)

/-- Which SQL statement `get_conflicts` ran, when it ran one at all. -/
inductive ConflictsQuery where
  | txnConflicts
  | txnConflictsOnOids
deriving DecidableEq, Repr

/-- The fields of the transaction object `get_conflicts` reads: its tid and
the oid keys of its modified map. -/
structure TxnModel where
  tid : Int
  modified : List String
deriving DecidableEq, Repr

/-- `PostgresqlStorage.get_conflicts(txn)`: empty modified set returns []
with no query; fewer than 1000 modified oids runs 'TXN_CONFLICTS_ON_OIDS'
(`tid > $1 AND zoid = ANY($2)`); otherwise 'TXN_CONFLICTS' (`tid > $1`).
Returns the query used (none when the database was not consulted) and the
fetched rows. -/
def PostgresqlStorage.get_conflicts (txn : TxnModel) (tbl : List ObjRecord) :
    Option ConflictsQuery × List ObjRecord :=
  if txn.modified.length = 0 then (none, [])
  else if txn.modified.length < 1000 then
    (some .txnConflictsOnOids,
     tbl.filter fun r => decide (txn.tid < r.tid) && txn.modified.contains r.zoid)
  else
    (some .txnConflicts, tbl.filter fun r => decide (txn.tid < r.tid))

/-- C6: `get_conflicts` returns the records whose tid exceeds the
transaction's baseline tid; with fewer than 1000 modified oids the scan is
restricted to exactly those oids (and, when at least one oid is modified,
runs 'TXN_CONFLICTS_ON_OIDS'), while with 1000 or more it scans the whole
table with 'TXN_CONFLICTS'. -/
theorem get_conflicts_scan_cases (txn : TxnModel) (tbl : List ObjRecord) :
    (txn.modified.length < 1000 →
      (PostgresqlStorage.get_conflicts txn tbl).2 =
        tbl.filter fun r => decide (txn.tid < r.tid) && txn.modified.contains r.zoid) ∧
    (0 < txn.modified.length → txn.modified.length < 1000 →
      (PostgresqlStorage.get_conflicts txn tbl).1 = some .txnConflictsOnOids) ∧
    (1000 ≤ txn.modified.length →
      PostgresqlStorage.get_conflicts txn tbl =
        (some .txnConflicts, tbl.filter fun r => decide (txn.tid < r.tid))) := by
  refine ⟨?_, ?_, ?_⟩
  · intro hlt
    by_cases h0 : txn.modified.length = 0
    · have hnil : txn.modified = [] := List.length_eq_zero.mp h0
      simp [PostgresqlStorage.get_conflicts, h0, hnil]
    · simp [PostgresqlStorage.get_conflicts, h0, hlt]
  · intro hpos hlt
    have h0 : ¬txn.modified.length = 0 := Nat.pos_iff_ne_zero.mp hpos
    simp [PostgresqlStorage.get_conflicts, h0, hlt]
  · intro hge
    have h0 : ¬txn.modified.length = 0 := by omega
    have hlt : ¬txn.modified.length < 1000 := by omega
    simp [PostgresqlStorage.get_conflicts, h0, hlt]

/-- Witness for C6: a 1-element modified set restricts the scan to that oid
(rootRec's newer tid 1 is ignored because "root" was not modified). -/
theorem get_conflicts_scan_cases_witness :
    (PostgresqlStorage.get_conflicts ⟨0, ["doc1"]⟩ exTable).2 =
      (exTable.filter fun r => decide ((0 : Int) < r.tid) && ["doc1"].contains r.zoid) ∧
    (PostgresqlStorage.get_conflicts ⟨0, ["doc1"]⟩ exTable).1 = some .txnConflictsOnOids :=
  ⟨(get_conflicts_scan_cases ⟨0, ["doc1"]⟩ exTable).1 (by decide),
   (get_conflicts_scan_cases ⟨0, ["doc1"]⟩ exTable).2.1 (by decide) (by decide)⟩

/-- C9: with an empty modified set `get_conflicts` returns the empty list
without running any query, whatever the table holds - even when records
with a tid above the baseline exist. -/
theorem get_conflicts_empty_modified (tid : Int) (tbl : List ObjRecord) :
    PostgresqlStorage.get_conflicts ⟨tid, []⟩ tbl = (none, []) := rfl

/-- One row of the blobs table (`_blob_schema`): bid, zoid, chunk_index,
data, primary key (bid, zoid, chunk_index). -/
structure BlobChunk where
  bid : String
  zoid : String
  chunk_index : Int
  data : List Nat
deriving DecidableEq, Repr

/-- Stub object row `write_blob_chunk` inserts when the owning oid is not in
the objects table yet: (zoid, -1, 0, 0, TRUE, 'stub'), other columns null. -/
def stubRecord (oid : String) : ObjRecord :=
  { zoid := oid, tid := -1, state_size := 0, part := 0, resource := true,
    of := none, otid := none, parent_id := none, id := none,
    type := "stub", json := none, state := none }

/-- The HAS_OBJECT check plus stub insert at the top of `write_blob_chunk`. -/
def ensureStub (ot : List ObjRecord) (oid : String) : List ObjRecord :=
  if (findRow ot oid).isSome then ot else ot ++ [stubRecord oid]

/-- `PostgresqlStorage.write_blob_chunk(txn, bid, oid, chunk_index, data)`:
creates the owner stub if needed, then runs 'INSERT_BLOB_CHUNK'; inserting a
duplicate (bid, zoid, chunk_index) violates the blobs primary key. -/
def PostgresqlStorage.write_blob_chunk (ot : List ObjRecord)
    (bt : List BlobChunk) (bid oid : String) (idx : Int) (data : List Nat) :
    Except PGError (List ObjRecord × List BlobChunk) :=
  if bt.any (fun c => c.bid == bid && c.zoid == oid && c.chunk_index == idx)
  then .error (.uniqueViolation "(bid, zoid, chunk_index)")
  else .ok (ensureStub ot oid, bt ++ [⟨bid, oid, idx, data⟩])

/-- `PostgresqlStorage.read_blob_chunk(txn, bid, chunk)`: the
'READ_BLOB_CHUNK' query, first row with this bid and chunk_index. -/
def PostgresqlStorage.read_blob_chunk (bt : List BlobChunk) (bid : String)
    (chunk : Int) : Option BlobChunk :=
  bt.find? fun c => c.bid == bid && c.chunk_index == chunk

/-- Write the given chunk payloads with `write_blob_chunk` at consecutive
indices starting at i, stopping at the first failure. -/
def writeBlobChunks (ot : List ObjRecord) (bt : List BlobChunk)
    (bid oid : String) (i : Int) :
    List (List Nat) → Except PGError (List ObjRecord × List BlobChunk)
  | [] => .ok (ot, bt)
  | d :: rest =>
    match PostgresqlStorage.write_blob_chunk ot bt bid oid i d with
    | .error e => .error e
    | .ok (ot', bt') => writeBlobChunks ot' bt' bid oid (i + 1) rest

/-- Read n chunk payloads back with `read_blob_chunk` at consecutive indices
starting at i (in index order, as readers iterate); none if any is absent. -/
def readBlobChunksData (bt : List BlobChunk) (bid : String) (i : Int) :
    Nat → Option (List (List Nat))
  | 0 => some []
  | n + 1 =>
    match PostgresqlStorage.read_blob_chunk bt bid i with
    | none => none
    | some c => (readBlobChunksData bt bid (i + 1) n).map (fun l => c.data :: l)

/-- The chunk rows that writing the payloads at consecutive indices from i
appends to the blobs table. -/
def mkChunks (bid oid : String) (i : Int) : List (List Nat) → List BlobChunk
  | [] => []
  | d :: rest => ⟨bid, oid, i, d⟩ :: mkChunks bid oid (i + 1) rest

/-- Writing at fresh consecutive indices succeeds and appends exactly the
corresponding chunk rows. -/
theorem writeBlobChunks_appends (chunks : List (List Nat)) :
    ∀ (ot : List ObjRecord) (bt : List BlobChunk) (bid oid : String) (i : Int),
    (∀ c ∈ bt, c.bid = bid → c.chunk_index < i) →
    ∃ ot', writeBlobChunks ot bt bid oid i chunks =
      .ok (ot', bt ++ mkChunks bid oid i chunks) := by
  induction chunks with
  | nil => intro ot bt bid oid i _; exact ⟨ot, by simp [writeBlobChunks, mkChunks]⟩
  | cons d rest ih =>
    intro ot bt bid oid i hfresh
    have hdup : (bt.any fun c => c.bid == bid && c.zoid == oid && c.chunk_index == i) = false := by
      rw [List.any_eq_false]
      intro c hc
      intro habs
      simp only [Bool.and_eq_true, beq_iff_eq] at habs
      exact absurd habs.2 (Int.ne_of_lt (hfresh c hc habs.1.1))
    have hfresh' : ∀ c ∈ bt ++ [(⟨bid, oid, i, d⟩ : BlobChunk)], c.bid = bid →
        c.chunk_index < i + 1 := by
      intro c hc hb
      rcases List.mem_append.mp hc with h | h
      · exact lt_trans (hfresh c h hb) (by omega)
      · rcases List.mem_singleton.mp h with rfl; simp
    obtain ⟨ot', hot'⟩ := ih (ensureStub ot oid) (bt ++ [⟨bid, oid, i, d⟩]) bid oid (i + 1) hfresh'
    refine ⟨ot', ?_⟩
    rw [writeBlobChunks, PostgresqlStorage.write_blob_chunk, hdup]
    simp only [Bool.false_eq_true, if_false, hot', mkChunks]
    rw [List.append_cons bt _ (mkChunks bid oid (i + 1) rest)]

/-- Reading consecutive indices back from the table left by the writes
returns exactly the chunk payloads, in index order. -/
theorem readBlobChunksData_roundtrip (chunks : List (List Nat)) :
    ∀ (bt : List BlobChunk) (bid oid : String) (i : Int),
    (∀ c ∈ bt, c.bid = bid → c.chunk_index < i) →
    readBlobChunksData (bt ++ mkChunks bid oid i chunks) bid i chunks.length =
      some chunks := by
  induction chunks with
  | nil => intro bt bid oid i _; simp [readBlobChunksData, mkChunks]
  | cons d rest ih =>
    intro bt bid oid i hfresh
    have hhead : PostgresqlStorage.read_blob_chunk
        (bt ++ mkChunks bid oid i (d :: rest)) bid i = some ⟨bid, oid, i, d⟩ := by
      rw [PostgresqlStorage.read_blob_chunk, mkChunks, List.find?_append]
      have hnone : (bt.find? fun c => c.bid == bid && c.chunk_index == i) = none := by
        apply List.find?_eq_none.mpr
        intro c hc habs
        simp only [Bool.and_eq_true, beq_iff_eq] at habs
        exact absurd habs.2 (Int.ne_of_lt (hfresh c hc habs.1))
      rw [hnone, Option.none_or, List.find?_cons_of_pos _ (by simp)]
    have hfresh' : ∀ c ∈ bt ++ [(⟨bid, oid, i, d⟩ : BlobChunk)], c.bid = bid →
        c.chunk_index < i + 1 := by
      intro c hc hb
      rcases List.mem_append.mp hc with h | h
      · exact lt_trans (hfresh c h hb) (by omega)
      · rcases List.mem_singleton.mp h with rfl; simp
    have htail := ih (bt ++ [⟨bid, oid, i, d⟩]) bid oid (i + 1) hfresh'
    rw [List.length_cons, readBlobChunksData, hhead]
    have hassoc : bt ++ mkChunks bid oid i (d :: rest) =
        (bt ++ [⟨bid, oid, i, d⟩]) ++ mkChunks bid oid (i + 1) rest := by
      rw [mkChunks, List.append_cons]
    rw [hassoc] at hhead ⊢
    rw [htail]
    rfl

/-- C7: for every blob id and every list of N chunk payloads written with
`write_blob_chunk` at indices 0..N-1 into a table holding no rows for that
bid, the writes succeed, and reading the chunks back with `read_blob_chunk`
at indices 0..N-1 and concatenating their data reconstructs exactly the
original byte stream. -/
theorem blob_chunk_roundtrip (ot : List ObjRecord) (bt : List BlobChunk)
    (bid oid : String) (chunks : List (List Nat))
    (hfresh : ∀ c ∈ bt, c.bid ≠ bid) :
    ∃ ot' bt',
      writeBlobChunks ot bt bid oid 0 chunks = .ok (ot', bt') ∧
      readBlobChunksData bt' bid 0 chunks.length = some chunks ∧
      (readBlobChunksData bt' bid 0 chunks.length).map (fun l => l.flatten) =
        some chunks.flatten := by
  have h0 : ∀ c ∈ bt, c.bid = bid → c.chunk_index < 0 := by
    intro c hc hb; exact absurd hb (hfresh c hc)
  obtain ⟨ot', hw⟩ := writeBlobChunks_appends chunks ot bt bid oid 0 h0
  have hr := readBlobChunksData_roundtrip chunks bt bid oid 0 h0
  exact ⟨ot', bt ++ mkChunks bid oid 0 chunks, hw, hr, by rw [hr]; rfl⟩

/-- Witness for C7: three chunks of a concrete byte stream round-trip
through an initially empty blobs table. -/
theorem blob_chunk_roundtrip_witness :
    ∃ ot' bt',
      writeBlobChunks exTable [] "blob1" "doc1" 0 [[1, 2], [3], [4, 5, 6]] = .ok (ot', bt') ∧
      readBlobChunksData bt' "blob1" 0 3 = some [[1, 2], [3], [4, 5, 6]] ∧
      (readBlobChunksData bt' "blob1" 0 3).map (fun l => l.flatten) =
        some [1, 2, 3, 4, 5, 6] :=
  blob_chunk_roundtrip exTable [] "blob1" "doc1" [[1, 2], [3], [4, 5, 6]]
    (by intro c hc; cases hc)

/-- Opaque namespace constant prepended to remote-tier keys
(`guillotina.contrib.cache.CACHE_PREFIX`; its defining module is not under
src/, and only its opacity matters here). -/
def cacheKeyHead : String := "gcache-"

/-- Outcome of a call into an external collaborator (remote cache driver,
pickle serialization): a value, or a raised exception. -/
inductive Outcome (β : Type) where
  | ok (b : β)
  | exc
deriving DecidableEq, Repr

/-- Exceptions that can travel out of the cache utility's internals. -/
inductive CacheExc where
  | driverFailure
  | serializeFailure
  | attributeError
  | assertionError
deriving DecidableEq, Repr

/-- Dict-style lookup in the in-process memory cache (an LRU dict; its
size-based eviction lives in lru.py, which is not under src/ and which no
claim depends on, so the dict view is modelled). -/
def memGet {α : Type} (c : List (String × α)) (k : String) : Option α :=
  (c.find? fun p => p.1 == k).map fun p => p.2

/-- `key in self._memory_cache`. -/
def memContains {α : Type} (c : List (String × α)) (k : String) : Bool :=
  (memGet c k).isSome

/-- `self._memory_cache[key] = value` / `.set(key, value, size)`: bind the
key, shadowing any previous binding. -/
def memSet {α : Type} (c : List (String × α)) (k : String) (v : α) :
    List (String × α) :=
  (k, v) :: c.filter fun p => p.1 != k

/-- `del self._memory_cache[key]` guarded by `key in ...`: drop the key's
binding (a no-op when the key is absent, exactly like the guarded del). -/
def memDel {α : Type} (c : List (String × α)) (k : String) : List (String × α) :=
  c.filter fun p => p.1 != k

/-- The mutable fields of `CacheUtility` the claims touch: the in-process
cache, whether an object-cache driver is configured, and the ignored-tids
list for self-invalidation suppression. -/
structure CacheState (α : Type) where
  memoryCache : List (String × α)
  hasObjDriver : Bool
  ignoredTids : List Int
deriving DecidableEq, Repr

/-- The `try ... except Exception: logger.warning(...)` wrapper shared by
get/set/delete/clear: any exception from the body is swallowed, the state
reached so far is kept, and the default value is returned. -/
def catchLog {α β : Type} (default : β) :
    Except CacheExc β × CacheState α → Except CacheExc β × CacheState α
  | (.error _, st) => (.ok default, st)
  | r => r

/-- The catch-all wrapper never lets an exception out: whatever the body
did, the wrapped call returns normally. -/
theorem catchLog_ok {α β : Type} (default : β)
    (r : Except CacheExc β × CacheState α) :
    ∃ b st', catchLog default r = (.ok b, st') := by
  match r with
  | (.error e, st) => exact ⟨default, st, rfl⟩
  | (.ok b, st) => exact ⟨b, st, rfl⟩

/-- Body of `CacheUtility.get(key)`: local hit returns the value; otherwise
the remote tier is queried through the driver, and a remote hit is
deserialized and written back into the memory cache - after which the
source falls off the end of the function without returning the value. -/
def CacheUtility.getBody {α σ : Type} (st : CacheState α)
    (driverGet : String → Outcome (Option σ)) (deser : σ → Outcome α)
    (key : String) : Except CacheExc (Option α) × CacheState α :=
  match memGet st.memoryCache key with
  | some v => (.ok (some v), st)
  | none =>
    if st.hasObjDriver then
      match driverGet (cacheKeyHead ++ key) with
      | .exc => (.error .driverFailure, st)
      | .ok none => (.ok none, st)
      | .ok (some sv) =>
        match deser sv with
        | .exc => (.error .serializeFailure, st)
        | .ok v => (.ok none, { st with memoryCache := memSet st.memoryCache key v })
    else (.ok none, st)

/-- `CacheUtility.get(key)` with its catch-all handler. -/
def CacheUtility.get {α σ : Type} (st : CacheState α)
    (driverGet : String → Outcome (Option σ)) (deser : σ → Outcome α)
    (key : String) : Except CacheExc (Option α) × CacheState α :=
  catchLog none (CacheUtility.getBody st driverGet deser key)

/-- Body of `CacheUtility.set(key, value, ttl)`: writes the memory cache
unconditionally, then (driver configured) serializes and writes the remote
tier with the ttl, defaulting to 3600 (`self._settings.get('ttl', 3600)`).
The size heuristic `get_size` only feeds LRU accounting and is elided. -/
def CacheUtility.setBody {α σ : Type} (st : CacheState α) (ser : α → Outcome σ)
    (driverSet : String → σ → Int → Outcome Unit) (key : String) (value : α)
    (ttl : Option Int) : Except CacheExc Unit × CacheState α :=
  if st.hasObjDriver then
    match ser value with
    | .exc => (.error .serializeFailure,
               { st with memoryCache := memSet st.memoryCache key value })
    | .ok sv =>
      match driverSet (cacheKeyHead ++ key) sv (ttl.getD 3600) with
      | .exc => (.error .driverFailure,
                 { st with memoryCache := memSet st.memoryCache key value })
      | .ok _ => (.ok (), { st with memoryCache := memSet st.memoryCache key value })
  else (.ok (), { st with memoryCache := memSet st.memoryCache key value })

/-- `CacheUtility.set` with its catch-all handler. -/
def CacheUtility.set {α σ : Type} (st : CacheState α) (ser : α → Outcome σ)
    (driverSet : String → σ → Int → Outcome Unit) (key : String) (value : α)
    (ttl : Option Int) : Except CacheExc Unit × CacheState α :=
  catchLog () (CacheUtility.setBody st ser driverSet key value ttl)

/-- Body of `CacheUtility.delete(key)`: removes the key from the memory
cache, then calls `self._obj_driver.delete(key)` without a None check (and,
notably, without the remote key namespace) - a missing driver raises
AttributeError inside the try block. -/
def CacheUtility.deleteBody {α : Type} (st : CacheState α)
    (driverDelete : String → Outcome Unit) (key : String) :
    Except CacheExc Unit × CacheState α :=
  if st.hasObjDriver then
    match driverDelete key with
    | .exc => (.error .driverFailure, { st with memoryCache := memDel st.memoryCache key })
    | .ok _ => (.ok (), { st with memoryCache := memDel st.memoryCache key })
  else (.error .attributeError, { st with memoryCache := memDel st.memoryCache key })

/-- `CacheUtility.delete` with its catch-all handler. -/
def CacheUtility.delete {α : Type} (st : CacheState α)
    (driverDelete : String → Outcome Unit) (key : String) :
    Except CacheExc Unit × CacheState α :=
  catchLog () (CacheUtility.deleteBody st driverDelete key)

/-- `CacheUtility.delete_all(keys)`: removes each key from the memory cache,
then calls the driver once with the namespaced keys when any were given.
This method has no try/except - a driver exception propagates. -/
def CacheUtility.delete_all {α : Type} (st : CacheState α)
    (driverDeleteAll : List String → Outcome Unit) (keys : List String) :
    Except CacheExc Unit × CacheState α :=
  if 0 < keys.length ∧ st.hasObjDriver = true then
    match driverDeleteAll (keys.map fun k => cacheKeyHead ++ k) with
    | .exc => (.error .driverFailure,
               { st with memoryCache := keys.foldl memDel st.memoryCache })
    | .ok _ => (.ok (), { st with memoryCache := keys.foldl memDel st.memoryCache })
  else (.ok (), { st with memoryCache := keys.foldl memDel st.memoryCache })

/-- Body of `CacheUtility.clear()`: flushes the memory cache and, when a
driver is configured, the remote tier. -/
def CacheUtility.clearBody {α : Type} (st : CacheState α)
    (driverFlush : Outcome Unit) : Except CacheExc Unit × CacheState α :=
  if st.hasObjDriver then
    match driverFlush with
    | .exc => (.error .driverFailure, { st with memoryCache := [] })
    | .ok _ => (.ok (), { st with memoryCache := [] })
  else (.ok (), { st with memoryCache := [] })

/-- `CacheUtility.clear` with its catch-all handler. -/
def CacheUtility.clear {α : Type} (st : CacheState α) (driverFlush : Outcome Unit) :
    Except CacheExc Unit × CacheState α :=
  catchLog () (CacheUtility.clearBody st driverFlush)

/-- Shape of a decoded invalidation payload as `invalidate` inspects it: a
dict whose 'tid' and 'keys' entries may be missing, plus the optional
'push' mapping - or something that is not a dict at all. -/
inductive PyMsg (α : Type) where
  | dict (tid : Option Int) (keys : Option (List String)) (push : List (String × α))
  | nonDict
deriving DecidableEq, Repr

/-- `trim` loop of `invalidate`: `while len(self._ignored_tids) > 100:
self._ignored_tids.pop(0)` - drop from the front down to 100 entries. -/
def trimIgnoredTids (l : List Int) : List Int :=
  l.drop (l.length - 100)

/-- `CacheUtility.invalidate` after the bytes/str deserialization step: the
three bare asserts (dict, 'tid' present, 'keys' present) raise
AssertionError on malformed input; a tid on the ignored list is removed
from it and the memory cache is left untouched; otherwise the listed keys
are evicted, pushed entries are stored, and the ignored list is trimmed. -/
def CacheUtility.invalidateDecoded {α : Type} (st : CacheState α) :
    PyMsg α → Except CacheExc Unit × CacheState α
  | .nonDict => (.error .assertionError, st)
  | .dict none _ _ => (.error .assertionError, st)
  | .dict (some _) none _ => (.error .assertionError, st)
  | .dict (some tid) (some keys) push =>
    if st.ignoredTids.contains tid then
      (.ok (), { st with ignoredTids := st.ignoredTids.erase tid })
    else
      (.ok (), { st with
        memoryCache := push.foldl (fun m kv => memSet m kv.1 kv.2)
          (keys.foldl memDel st.memoryCache),
        ignoredTids := trimIgnoredTids st.ignoredTids })

/-- `CacheUtility.invalidate(data=..., sender=...)`: bytes/str payloads are
deserialized, with only TypeError/UnpicklingError caught ("Invalid
message"); everything after that deserialization is unguarded. -/
def CacheUtility.invalidate {α σ : Type} (st : CacheState α)
    (deserInv : σ → Outcome (PyMsg α)) (data : σ ⊕ PyMsg α) :
    Except CacheExc Unit × CacheState α :=
  match data with
  | .inl s =>
    match deserInv s with
    | .exc => (.ok (), st)
    | .ok m => CacheUtility.invalidateDecoded st m
  | .inr m => CacheUtility.invalidateDecoded st m

/-- `CacheUtility.ignore_tid(tid)`: append to the ignored list. -/
def CacheUtility.ignore_tid {α : Type} (st : CacheState α) (tid : Int) :
    CacheState α :=
  { st with ignoredTids := st.ignoredTids ++ [tid] }

/-- `guillotina.contrib.pubsub.exceptions.NoPubSubDriver`. -/
inductive PubSubError where
  | noPubSubDriver
deriving DecidableEq, Repr

/-- Wire envelope `{'ruid': rid, 'data': data}`; `ruid` is read back with
`data.get('ruid')`, so a missing origin id is `none`. -/
structure Envelope (δ : Type) where
  ruid : Option String
  data : δ
deriving DecidableEq, Repr

/-- The mutable fields of `PubSubUtility`: whether a driver is configured,
the per-channel subscriber dicts (requester id to callback), and the
channels with a running relay task. -/
structure PubSubState (γ : Type) where
  hasDriver : Bool
  subscribers : List (String × List (String × γ))
  tasks : List String
deriving DecidableEq, Repr

/-- `PubSubUtility.publish(channel_name, rid, data)`: with no driver the
body is skipped entirely (`if self._driver is not None`) and the call
returns normally; with a driver the envelope is pickled and handed to
`driver.publish`.  Returns what was sent (none when nothing was). -/
def PubSubUtility.publish {γ δ : Type} (st : PubSubState γ)
    (channelName rid : String) (data : δ) :
    Except PubSubError (Option (String × Envelope δ)) :=
  if st.hasDriver then .ok (some (channelName, { ruid := some rid, data := data }))
  else .ok none

/-- `PubSubUtility.subscribe(channel_name, rid, callback)`: raises
NoPubSubDriver without a driver; otherwise binds the callback under the
requester id, starting one relay task when the channel is new. -/
def PubSubUtility.subscribe {γ : Type} (st : PubSubState γ)
    (channelName rid : String) (callback : γ) :
    Except PubSubError (PubSubState γ) :=
  if st.hasDriver = false then .error .noPubSubDriver
  else
    match st.subscribers.find? (fun p => p.1 == channelName) with
    | some _ =>
      .ok { st with subscribers := st.subscribers.map fun p =>
        if p.1 == channelName then (p.1, (rid, callback) :: p.2.filter fun q => q.1 != rid)
        else p }
    | none =>
      .ok { st with
        subscribers := st.subscribers ++ [(channelName, [(rid, callback)])],
        tasks := st.tasks ++ [channelName] }

/-- `PubSubUtility.unsubscribe(channel_name, req_id)`: raises NoPubSubDriver
without a driver; otherwise drops the requester's callback and, when the
channel's dict becomes empty, cancels the relay task, unsubscribes the
channel at the driver and forgets the channel. -/
def PubSubUtility.unsubscribe {γ : Type} (st : PubSubState γ)
    (channelName reqId : String) : Except PubSubError (PubSubState γ) :=
  if st.hasDriver = false then .error .noPubSubDriver
  else
    match st.subscribers.find? (fun p => p.1 == channelName) with
    | none => .ok st
    | some p =>
      if (p.2.filter fun q => q.1 != reqId).isEmpty then
        .ok { st with
          subscribers := st.subscribers.filter fun q => q.1 != channelName,
          tasks := st.tasks.filter fun t => t != channelName }
      else
        .ok { st with subscribers := st.subscribers.map fun q =>
          if q.1 == channelName then (q.1, q.2.filter fun x => x.1 != reqId) else q }

/-- Relay dispatch step of `PubSubUtility.real_subscribe`: for one decoded
message, the callbacks invoked are exactly the channel's subscribers whose
requester id differs from the message's origin id
(`if data.get('ruid') != req`). -/
def PubSubUtility.dispatchTargets {γ δ : Type} (subs : List (String × γ))
    (msg : Envelope δ) : List (String × γ) :=
  subs.filter fun p => msg.ruid != some p.1

/-- Example cache state: empty local cache, remote driver configured. -/
def exCacheState : CacheState String :=
  { memoryCache := [], hasObjDriver := true, ignoredTids := [] }

/-- Example remote driver: holds a value for obj1 under the namespaced key. -/
def exDriverGet : String → Outcome (Option String) :=
  fun k => if k == cacheKeyHead ++ "obj1" then .ok (some "serialized1") else .ok none

/-- Example deserializer for the single stored value. -/
def exDeser : String → Outcome String :=
  fun s => if s == "serialized1" then .ok "value1" else .exc

/-- C3 (code bug): with "obj1" absent locally and present in the remote
tier, `get` deserializes the remote value and repopulates the local cache
with it, but returns None - the `return val` is missing from the remote-hit
branch - even though an immediately repeated `get` then returns the value
from the repopulated local cache. -/
theorem cache_get_remote_hit_returns_none :
    CacheUtility.get exCacheState exDriverGet exDeser "obj1" =
      (.ok none, { exCacheState with memoryCache := [("obj1", "value1")] }) ∧
    (CacheUtility.get { exCacheState with memoryCache := [("obj1", "value1")] }
      exDriverGet exDeser "obj1").1 = .ok (some "value1") := by
  constructor <;> rfl

/-- C4 counterexample: `delete_all` has no try/except, so a driver
exception propagates to the caller; and `invalidate` raises AssertionError
on a well-formed-looking dict that merely lacks the 'tid' entry. -/
theorem cache_ops_propagate_counterexample :
    (CacheUtility.delete_all exCacheState (fun _ => Outcome.exc) ["k"]).1 =
      .error CacheExc.driverFailure ∧
    (CacheUtility.invalidate exCacheState
      (fun s : String => Outcome.ok (PyMsg.nonDict : PyMsg String))
      (Sum.inr (PyMsg.dict none (some ["k"]) ([] : List (String × String))))).1 =
      .error CacheExc.assertionError := by
  constructor <;> rfl

/-- C4 amended: `get`, `set`, `delete` and `clear` catch and log every
internal exception and return normally, whatever the driver or the
serializer does; but `delete_all` (which has no try/except) propagates
driver exceptions, and `invalidate` propagates AssertionError on malformed
input (its deserialization step alone is guarded). -/
theorem cache_ops_catch_all_amended :
    (∀ (α σ : Type) (st : CacheState α) (dg : String → Outcome (Option σ))
       (ds : σ → Outcome α) (k : String),
      ∃ b st', CacheUtility.get st dg ds k = (.ok b, st')) ∧
    (∀ (α σ : Type) (st : CacheState α) (ser : α → Outcome σ)
       (dset : String → σ → Int → Outcome Unit) (k : String) (v : α) (ttl : Option Int),
      ∃ st', CacheUtility.set st ser dset k v ttl = (.ok (), st')) ∧
    (∀ (α : Type) (st : CacheState α) (ddel : String → Outcome Unit) (k : String),
      ∃ st', CacheUtility.delete st ddel k = (.ok (), st')) ∧
    (∀ (α : Type) (st : CacheState α) (dflush : Outcome Unit),
      ∃ st', CacheUtility.clear st dflush = (.ok (), st')) ∧
    (CacheUtility.delete_all exCacheState (fun _ => Outcome.exc) ["k"]).1 =
      .error CacheExc.driverFailure ∧
    (CacheUtility.invalidate exCacheState
      (fun s : String => Outcome.ok (PyMsg.nonDict : PyMsg String))
      (Sum.inr (PyMsg.dict none (some ["k"]) ([] : List (String × String))))).1 =
      .error CacheExc.assertionError := by
  refine ⟨?_, ?_, ?_, ?_, rfl, rfl⟩
  · intro α σ st dg ds k
    exact catchLog_ok none (CacheUtility.getBody st dg ds k)
  · intro α σ st ser dset k v ttl
    obtain ⟨b, st', h⟩ := catchLog_ok () (CacheUtility.setBody st ser dset k v ttl)
    exact ⟨st', h⟩
  · intro α st ddel k
    obtain ⟨b, st', h⟩ := catchLog_ok () (CacheUtility.deleteBody st ddel k)
    exact ⟨st', h⟩
  · intro α st dflush
    obtain ⟨b, st', h⟩ := catchLog_ok () (CacheUtility.clearBody st dflush)
    exact ⟨st', h⟩

/-- C8: a process's own invalidation message never evicts or overwrites its
just-written local entry: the relay dispatches to no callback registered
under the message's own origin id, and the invalidate callback, given a tid
on its ignored list, returns leaving the memory cache untouched and merely
removes that tid from the list. -/
theorem self_invalidation_suppression :
    (∀ (γ δ : Type) (subs : List (String × γ)) (msg : Envelope δ) (cb : γ) (rid : String),
      msg.ruid = some rid → (rid, cb) ∉ PubSubUtility.dispatchTargets subs msg) ∧
    (∀ (α σ : Type) (st : CacheState α) (deserInv : σ → Outcome (PyMsg α)) (tid : Int)
       (keys : List String) (push : List (String × α)),
      st.ignoredTids.contains tid = true →
      CacheUtility.invalidate st deserInv (Sum.inr (PyMsg.dict (some tid) (some keys) push)) =
        (.ok (), { st with ignoredTids := st.ignoredTids.erase tid })) := by
  constructor
  · intro γ δ subs msg cb rid hruid hmem
    rw [PubSubUtility.dispatchTargets] at hmem
    have := (List.mem_filter.mp hmem).2
    rw [hruid] at this
    simp at this
  · intro α σ st deserInv tid keys push hign
    rw [CacheUtility.invalidate, CacheUtility.invalidateDecoded, if_pos hign]

/-- Witness for C8: a relay message originating from "self" is not
dispatched to the callback registered under "self" (only to "peer"), and an
invalidate for the ignored tid 7 leaves a populated memory cache intact
while consuming the 7 from the ignored list. -/
theorem self_invalidation_suppression_witness :
    ("self", 0) ∉ PubSubUtility.dispatchTargets [("self", 0), ("peer", 1)]
      ({ ruid := some "self", data := 3 } : Envelope Nat) ∧
    CacheUtility.invalidate
      ({ memoryCache := [("obj1", "value1")], hasObjDriver := true,
         ignoredTids := [7, 8] } : CacheState String)
      (fun s : String => Outcome.ok PyMsg.nonDict)
      (Sum.inr (PyMsg.dict (some 7) (some ["obj1"]) [("obj1", "other")])) =
      (.ok (), { memoryCache := [("obj1", "value1")], hasObjDriver := true,
                 ignoredTids := [8] }) :=
  ⟨self_invalidation_suppression.1 Nat Nat [("self", 0), ("peer", 1)]
      { ruid := some "self", data := 3 } 0 "self" rfl,
   self_invalidation_suppression.2 String String
      { memoryCache := [("obj1", "value1")], hasObjDriver := true, ignoredTids := [7, 8] }
      (fun _ => Outcome.ok PyMsg.nonDict) 7 ["obj1"] [("obj1", "other")] (by decide)⟩

/-- C10: with no pubsub driver configured, `publish` is a silent no-op
(returns normally, sends nothing), while `subscribe` and `unsubscribe` in
the same state raise NoPubSubDriver - the three operations do not fail
uniformly on a missing driver. -/
theorem pubsub_missing_driver_asymmetry :
    (∀ (γ δ : Type) (subs : List (String × List (String × γ))) (tasks : List String)
       (channelName rid : String) (data : δ),
      PubSubUtility.publish
        ({ hasDriver := false, subscribers := subs, tasks := tasks } : PubSubState γ)
        channelName rid data = .ok none) ∧
    (∀ (γ : Type) (subs : List (String × List (String × γ))) (tasks : List String)
       (channelName rid : String) (cb : γ),
      PubSubUtility.subscribe
        ({ hasDriver := false, subscribers := subs, tasks := tasks } : PubSubState γ)
        channelName rid cb = .error .noPubSubDriver) ∧
    (∀ (γ : Type) (subs : List (String × List (String × γ))) (tasks : List String)
       (channelName reqId : String),
      PubSubUtility.unsubscribe
        ({ hasDriver := false, subscribers := subs, tasks := tasks } : PubSubState γ)
        channelName reqId = .error .noPubSubDriver) :=
  ⟨fun γ δ subs tasks c r d => rfl,
   fun γ subs tasks c r cb => rfl,
   fun γ subs tasks c r => rfl⟩

end Guillotina
